import Mathlib

/-!
Verification development for the analytics / classification / budgeting core of a
personal-finance tracking application (TypeScript sources under `src/`).

Strings are modelled as `List Char`; JavaScript numbers are modelled as `ℚ`
(all constants appearing in the code, such as 0.5, 1.3 or 1.5, are exactly
representable, and the arithmetic the claims quantify over stays well inside
the range where IEEE doubles behave exactly on the concrete inputs used).
Machine 32-bit integer coercion (the `<<` operator of JavaScript) is modelled
explicitly with `% 2^32` where the code uses it.
-/

namespace SmartSpend

/-- Models `Char.toLowerCase` of JavaScript for the ASCII range
(`'A'..'Z'` map to `'a'..'z'`, everything else is unchanged); the category
and keyword strings of the code are ASCII. -/
def jsLowerChar (c : Char) : Char :=
  if 'A' ≤ c ∧ c ≤ 'Z' then Char.ofNat (c.toNat + 32) else c

/-- `s.toLowerCase()` on the List-Char model of strings. -/
def jsLowerStr (s : List Char) : List Char := s.map jsLowerChar

/-- `s.startsWith(p)`: the first argument starts with the second. -/
def strStarts : List Char → List Char → Bool
  | _, [] => true
  | [], _ :: _ => false
  | c :: s, p :: ps => c == p && strStarts s ps

/-- `s.includes(p)`: the second argument occurs as a contiguous substring
of the first (the empty pattern always occurs). -/
def strIncludes (s pat : List Char) : Bool :=
  match s with
  | [] => strStarts [] pat
  | c :: rest => strStarts (c :: rest) pat || strIncludes rest pat

/-- Transaction type tag (`'expense' | 'income'`, src/types/index.ts). -/
inductive Ttype where
  | expense
  | income
deriving DecidableEq

/-- `Transaction` record (src/types/index.ts lines 1-11). -/
structure Transaction where
  id : List Char
  title : List Char
  amount : ℚ
  category : List Char
  date : List Char
  note : Option (List Char)
  type : Ttype
  isNeed : Bool
  createdAt : List Char
deriving DecidableEq

/-- `ExpenseClassification` (src/types/aiFeatures.ts line 3). -/
inductive ExpenseClassification where
  | need
  | want
  | unclassified
deriving DecidableEq

/-- `ClassifiedTransaction` (src/types/aiFeatures.ts lines 5-11); the
`classifiedAt` wall-clock timestamp is omitted: it is impure
(`new Date().toISOString()`) and no claim concerns it. -/
structure ClassifiedTransaction where
  transactionId : List Char
  classification : ExpenseClassification
  confidence : ℚ
  aiGenerated : Bool
deriving DecidableEq

/-- `NEED_CATEGORIES` (src/services/aiClassification.ts line 8). -/
def NEED_CATEGORIES : List (List Char) :=
  [String.data "Health", String.data "Transportation", String.data "Housing",
   String.data "Utilities", String.data "Insurance"]

/-- `NEED_KEYWORDS` (src/services/aiClassification.ts lines 9-14). -/
def NEED_KEYWORDS : List (List Char) :=
  [String.data "medicine", String.data "doctor", String.data "hospital",
   String.data "pharmacy", String.data "medical",
   String.data "rent", String.data "mortgage", String.data "electricity",
   String.data "water", String.data "gas", String.data "internet",
   String.data "insurance", String.data "transport", String.data "bus",
   String.data "train", String.data "fuel", String.data "gasoline",
   String.data "groceries", String.data "food", String.data "essential",
   String.data "basic", String.data "necessity"]

/-- `WANT_KEYWORDS` (src/services/aiClassification.ts lines 16-22). -/
def WANT_KEYWORDS : List (List Char) :=
  [String.data "entertainment", String.data "movie", String.data "restaurant",
   String.data "dining", String.data "coffee",
   String.data "shopping", String.data "clothes", String.data "fashion",
   String.data "luxury", String.data "premium",
   String.data "gaming", String.data "hobby", String.data "sports",
   String.data "fitness", String.data "gym",
   String.data "vacation", String.data "travel", String.data "hotel",
   String.data "ticket", String.data "concert",
   String.data "gift", String.data "present", String.data "treat",
   String.data "splurge", String.data "indulge"]

/-- The text `` `${category} ${note || ''}` `` scored against the keyword
lists (src/services/aiClassification.ts lines 64 and 104), lower-cased. -/
def classificationText (t : Transaction) : List Char :=
  jsLowerStr (t.category ++ [' '] ++ t.note.getD [])

/-- The category-based rule: `NEED_CATEGORIES.some(needCat =>
category.toLowerCase().includes(needCat.toLowerCase()))`
(src/services/aiClassification.ts lines 67-69 and 109-111). -/
def categoryNeedMatch (category : List Char) : Bool :=
  NEED_CATEGORIES.any (fun nc => strIncludes (jsLowerStr category) (jsLowerStr nc))

/-- Amount factor (`getAmountFactor`, src/services/aiClassification.ts
lines 186-190). -/
inductive AmountFactor where
  | low
  | medium
  | high
deriving DecidableEq

/-- `AIClassificationService.getAmountFactor` (src/services/aiClassification.ts
lines 186-190). -/
def getAmountFactor (amount : ℚ) : AmountFactor :=
  if amount < 50 then .low
  else if amount < 200 then .medium
  else .high

/-- `AIClassificationService.ruleBasedClassification`
(src/services/aiClassification.ts lines 62-97). -/
def ruleBasedClassification (t : Transaction) : ExpenseClassification :=
  let text := classificationText t
  if categoryNeedMatch t.category = true then .need
  else
    let needScore := (NEED_KEYWORDS.filter (fun k => strIncludes text k)).length
    let wantScore := (WANT_KEYWORDS.filter (fun k => strIncludes text k)).length
    let amountFactor := getAmountFactor t.amount
    if needScore > wantScore then .need
    else if wantScore > needScore then .want
    else if amountFactor = AmountFactor.high ∧ t.amount > 100 then .want
    else if amountFactor = AmountFactor.low ∧ t.amount < 20 then .need
    else .unclassified

/-- `AIClassificationService.calculateConfidence`
(src/services/aiClassification.ts lines 99-130); the `classification`
parameter is declared by the source but never read. -/
def calculateConfidence (t : Transaction) (_cl : ExpenseClassification) : ℚ :=
  let text := classificationText t
  let c0 : ℚ := 0.5
  let c1 := if categoryNeedMatch t.category = true then c0 + 0.3 else c0
  let c2 := if (NEED_KEYWORDS.filter (fun k => strIncludes text k)).length > 0
    then c1 + 0.2 else c1
  let c3 := if (WANT_KEYWORDS.filter (fun k => strIncludes text k)).length > 0
    then c2 + 0.2 else c2
  let c4 := if t.amount > 200 then c3 + 0.1 else c3
  let c5 := if t.amount < 50 then c4 + 0.1 else c4
  let c6 := match t.note with
    | some n => if n.length > 10 then c5 + 0.1 else c5
    | none => c5
  min c6 1

/-- `AIClassificationService.findTransactionById`
(src/services/aiClassification.ts lines 193-197): the source always
returns `null` ("For now, return null to avoid circular dependencies"). -/
def findTransactionById (_ : List Char) : Option Transaction := none

/-- `AIClassificationService.learnFromUserHistory`
(src/services/aiClassification.ts lines 132-184). -/
def learnFromUserHistory (t : Transaction)
    (userClassifications : Option (List ClassifiedTransaction))
    (defaultClassification : ExpenseClassification) (defaultConfidence : ℚ) :
    ExpenseClassification × ℚ :=
  match userClassifications with
  | none => (defaultClassification, defaultConfidence)
  | some ucs =>
    if ucs.isEmpty then (defaultClassification, defaultConfidence)
    else
      let similarTransactions := ucs.filter (fun uc =>
        match findTransactionById uc.transactionId with
        | none => false
        | some ut =>
          decide (ut.category = t.category) && decide (|ut.amount - t.amount| < 50))
      if similarTransactions.isEmpty then (defaultClassification, defaultConfidence)
      else
        let needWeight :=
          ((similarTransactions.filter
            (fun c => c.classification = ExpenseClassification.need)).map
              (fun c => c.confidence)).sum
        let wantWeight :=
          ((similarTransactions.filter
            (fun c => c.classification = ExpenseClassification.want)).map
              (fun c => c.confidence)).sum
        if needWeight > wantWeight then
          (ExpenseClassification.need, min (defaultConfidence + 0.2) 1)
        else if wantWeight > needWeight then
          (ExpenseClassification.want, min (defaultConfidence + 0.2) 1)
        else (defaultClassification, defaultConfidence)

/-- `AIClassificationService.classifyTransaction`
(src/services/aiClassification.ts lines 26-60), non-error path: the pure
pipeline rule-based label → confidence → history pass. The `catch` fallback
(confidence 0) is unreachable in this pure model. -/
def classifyTransaction (t : Transaction)
    (userClassifications : Option (List ClassifiedTransaction)) :
    ClassifiedTransaction :=
  let classification := ruleBasedClassification t
  let confidence := calculateConfidence t classification
  let learned := learnFromUserHistory t userClassifications classification confidence
  { transactionId := t.id
    classification := learned.1
    confidence := learned.2
    aiGenerated := true }

/-! ### Budget AI service (src/services/notifications.ts lines 176-460) -/

/-- A JavaScript `Date` value at calendar-day granularity (UTC): `year` is
`getFullYear()`, `month` is the 0-based `getMonth()` index (0 = January,
11 = December), `day` is `getDate()`. -/
structure JDate where
  year : Nat
  month : Nat
  day : Nat
deriving DecidableEq

/-- Gregorian leap-year rule, as implemented by the JavaScript `Date`. -/
def isLeapYear (y : Nat) : Bool :=
  y % 4 = 0 && (y % 100 ≠ 0 || y % 400 = 0)

/-- `new Date(year, month + 1, 0).getDate()`: the number of days of the
0-based `month` of `year` (src/services/notifications.ts line 221). -/
def daysInMonth (y m : Nat) : Nat :=
  match m with
  | 0 => 31
  | 1 => if isLeapYear y then 29 else 28
  | 2 => 31
  | 3 => 30
  | 4 => 31
  | 5 => 30
  | 6 => 31
  | 7 => 31
  | 8 => 30
  | 9 => 31
  | 10 => 30
  | _ => 31

/-- Decimal digits of a natural number (`String(n)` of JavaScript). -/
def natChars (n : Nat) : List Char := Nat.toDigits 10 n

/-- `String(n).padStart(w, '0')`. -/
def padZero (w n : Nat) : List Char :=
  let s := natChars n
  List.replicate (w - s.length) '0' ++ s

/-- The month prefix `targetDate.getFullYear() + '-' +
String(targetDate.getMonth() + 1).padStart(2, '0')`
(src/services/notifications.ts line 217). -/
def monthKey (d : JDate) : List Char :=
  natChars d.year ++ ['-'] ++ padZero 2 (d.month + 1)

/-- The `YYYY-MM-DD` part of `toISOString()` for a calendar date. -/
def isoDate (d : JDate) : List Char :=
  padZero 4 d.year ++ ['-'] ++ padZero 2 (d.month + 1) ++ ['-'] ++ padZero 2 d.day

/-- `Math.round` of JavaScript: round half toward positive infinity. -/
def jsRound (q : ℚ) : ℤ := ⌊q + 1/2⌋

/-- `Math.round(q * 100) / 100` (two-decimal rounding used throughout the
budget service). -/
def roundTo2 (q : ℚ) : ℚ := (jsRound (q * 100) : ℚ) / 100

/-- Risk level (`'low' | 'medium' | 'high'`, src/types/aiFeatures.ts line 47). -/
inductive RiskLevel where
  | low
  | medium
  | high
deriving DecidableEq

/-- `DailyForecast` (src/types/aiFeatures.ts lines 41-48). -/
structure DailyForecast where
  date : List Char
  safeToSpend : ℚ
  monthlyBudget : ℚ
  spentSoFar : ℚ
  daysLeft : ℤ
  riskLevel : RiskLevel
deriving DecidableEq

/-- `BudgetAIService.calculateRiskLevel` (src/services/notifications.ts
lines 403-415). When `expectedSpending` is 0 the JavaScript ratio is
`±Infinity` or `NaN`; both `NaN < x` comparisons are false (giving `high`)
unless `spentSoFar` is negative, where `-Infinity < 0.8` gives `low`. -/
def calculateRiskLevel (spentSoFar monthlyBudget : ℚ) (currentDay dim : Nat) :
    RiskLevel :=
  let expectedSpending := monthlyBudget / (dim : ℚ) * (currentDay : ℚ)
  if expectedSpending = 0 then
    (if spentSoFar < 0 then .low else .high)
  else
    let spendingRatio := spentSoFar / expectedSpending
    if spendingRatio < 0.8 then .low
    else if spendingRatio < 1.2 then .medium
    else .high

/-- `BudgetAIService.calculateDailyForecast`
(src/services/notifications.ts lines 211-249), non-error path. Note that
`monthTransactions` filters only on the date prefix: the transaction `type`
is not consulted. -/
def calculateDailyForecast (transactions : List Transaction)
    (monthlyBudget : ℚ) (targetDate : JDate) : DailyForecast :=
  let currentMonth := monthKey targetDate
  let monthTransactions := transactions.filter (fun t => strStarts t.date currentMonth)
  let spentSoFar := monthTransactions.foldl (fun s t => s + t.amount) 0
  let dim := daysInMonth targetDate.year targetDate.month
  let daysLeft : ℤ := (dim : ℤ) - (targetDate.day : ℤ) + 1
  let remainingBudget := max 0 (monthlyBudget - spentSoFar)
  let safeToSpend : ℚ := if 0 < daysLeft then remainingBudget / (daysLeft : ℚ) else 0
  { date := isoDate targetDate
    safeToSpend := roundTo2 safeToSpend
    monthlyBudget := monthlyBudget
    spentSoFar := spentSoFar
    daysLeft := daysLeft
    riskLevel := calculateRiskLevel spentSoFar monthlyBudget targetDate.day dim }

/-- `BudgetAIService.getSeasonalFactor` (src/services/notifications.ts
lines 375-400): `date.getMonth()` is 0-based, so the first branch
(`month === 11 || month === 0`) fires in December and January. -/
def getSeasonalFactor (category : List Char) (date : JDate) : ℚ :=
  let month := date.month
  if (month = 11 ∨ month = 0) ∧
      (strIncludes (jsLowerStr category) (String.data "shopping") = true ∨
       strIncludes (jsLowerStr category) (String.data "gift") = true) then 1.3
  else if (5 ≤ month ∧ month ≤ 8) ∧
      (strIncludes (jsLowerStr category) (String.data "travel") = true ∨
       strIncludes (jsLowerStr category) (String.data "entertainment") = true) then 1.2
  else if (month = 7 ∨ month = 8) ∧
      (strIncludes (jsLowerStr category) (String.data "education") = true ∨
       strIncludes (jsLowerStr category) (String.data "shopping") = true) then 1.15
  else 1.0

/-! ### Analytics (src/utils/analytics.ts) -/

/-- One step of the `Map.get(k) || 0` / `Map.set(k, current + v)` grouping
idiom: an existing key keeps its position (JavaScript `Map` preserves
insertion order on update), a new key is appended. -/
def mapAdd (m : List (List Char × ℚ)) (k : List Char) (v : ℚ) :
    List (List Char × ℚ) :=
  match m with
  | [] => [(k, v)]
  | (k1, v1) :: rest =>
    if k1 == k then (k1, v1 + v) :: rest else (k1, v1) :: mapAdd rest k v

/-- Sum of the values of a grouping map. -/
def sumSnd (m : List (List Char × ℚ)) : ℚ := (m.map Prod.snd).sum

/-- Stable insertion of `x` into a list sorted descendingly by `f`
(models one placement of the stable `Array.prototype.sort` with comparator
`(a, b) => f b - f a`). -/
def insertDesc (f : α → ℚ) (x : α) : List α → List α
  | [] => [x]
  | y :: ys => if f x < f y then y :: insertDesc f x ys else x :: y :: ys

/-- Stable descending sort by `f` (`.sort((a, b) => f b - f a)`). -/
def sortDesc (f : α → ℚ) (l : List α) : List α := l.foldr (insertDesc f) []

/-- The expense sublist (`transactions.filter(t => t.type === 'expense')`). -/
def expensesOf (ts : List Transaction) : List Transaction :=
  ts.filter (fun t => decide (t.type = Ttype.expense))

/-- The `dailySpending` map of `generateSpendingInsights`
(src/utils/analytics.ts lines 79-83): per-date expense totals, keyed by the
exact date string, in first-occurrence order. -/
def dailyTotals (ts : List Transaction) : List (List Char × ℚ) :=
  (expensesOf ts).foldl (fun m t => mapAdd m t.date t.amount) []

/-- `avgDailySpending` (src/utils/analytics.ts line 85): the mean of the
per-day totals over the days that have at least one expense. -/
def avgDaily (ts : List Transaction) : ℚ :=
  sumSnd (dailyTotals ts) / ((dailyTotals ts).length : ℚ)

/-- The `highSpendingDays` selection of `generateSpendingInsights`
(src/utils/analytics.ts lines 63-99): after the early returns for an empty
transaction list or an empty expense sublist, the days whose total strictly
exceeds `avgDailySpending * 1.5`, sorted by descending total, capped to 3.
`generateSpendingInsights` pushes exactly one `'high_spending_day'` insight
per entry of this list, in this order, before any insight of another type
(`'category_trend'` and `'savings_suggestion'` entries follow). -/
def highSpendingDays (ts : List Transaction) : List (List Char × ℚ) :=
  if ts.isEmpty then []
  else if (expensesOf ts).isEmpty then []
  else
    (sortDesc Prod.snd
      ((dailyTotals ts).filter (fun p => decide (p.2 > avgDaily ts * 1.5)))).take 3

/-- The fixed 10-color palette of `getCategoryColor`
(src/utils/analytics.ts lines 157-160). -/
def categoryColors : List (List Char) :=
  [String.data "#FF6B6B", String.data "#4ECDC4", String.data "#45B7D1",
   String.data "#96CEB4", String.data "#FFEAA7", String.data "#DDA0DD",
   String.data "#98D8C8", String.data "#F7DC6F", String.data "#BB8FCE",
   String.data "#85C1E9"]

/-- JavaScript `ToInt32`: reduce modulo 2^32 into `[-2^31, 2^31)`. -/
def toInt32 (x : ℤ) : ℤ :=
  let r := x % 4294967296
  if r < 2147483648 then r else r - 4294967296

/-- `getCategoryColor` (src/utils/analytics.ts lines 156-168):
`hash = charCode + ((hash << 5) - hash)` where `<<` coerces to a 32-bit
integer; the remaining arithmetic is exact for every realistic string. -/
def getCategoryColor (category : List Char) : List Char :=
  let hash := category.foldl (fun h c => (c.toNat : ℤ) + (toInt32 (h * 32) - h)) 0
  categoryColors.getD (hash.natAbs % categoryColors.length) []

/-- `CategoryBreakdown` (src/types/index.ts lines 27-32). -/
structure CategoryBreakdown where
  category : List Char
  amount : ℚ
  percentage : ℚ
  color : List Char
deriving DecidableEq

/-- `calculateCategoryBreakdown` (src/utils/analytics.ts lines 39-61). -/
def calculateCategoryBreakdown (transactions : List Transaction)
    (period : List Char) : List CategoryBreakdown :=
  let periodTransactions := transactions.filter
    (fun t => strStarts t.date period && decide (t.type = Ttype.expense))
  let total := periodTransactions.foldl (fun s t => s + t.amount) 0
  let categoryMap := periodTransactions.foldl
    (fun m t => mapAdd m t.category t.amount) []
  let breakdown := categoryMap.map (fun p =>
    { category := p.1
      amount := p.2
      percentage := if total > 0 then p.2 / total * 100 else 0
      color := getCategoryColor p.1 : CategoryBreakdown })
  sortDesc (fun b => b.amount) breakdown

/-! ### Concrete example data used by witnesses and counterexamples -/

/-- An expense transaction for a given date string and amount ("Food"). -/
def mkE (d : String) (a : ℚ) : Transaction :=
  { id := d.data, title := String.data "e", amount := a,
    category := String.data "Food", date := d.data, note := none,
    type := .expense, isNeed := false, createdAt := String.data "x" }

/-- Ten expense days in May 2024: four days (19, 18, 17, 16) exceed 1.5 times
the mean daily spend of 10, so the cap of 3 drops the fourth. -/
def ts6 : List Transaction :=
  [mkE "2024-05-01" 19, mkE "2024-05-02" 18, mkE "2024-05-03" 17,
   mkE "2024-05-04" 16, mkE "2024-05-05" 5, mkE "2024-05-06" 5,
   mkE "2024-05-07" 5, mkE "2024-05-08" 5, mkE "2024-05-09" 5,
   mkE "2024-05-10" 5]

/-- A "Medical Checkup" expense with a mid-range amount (between 50 and 200). -/
def tMed : Transaction :=
  { id := String.data "t1", title := String.data "checkup", amount := 100,
    category := String.data "Medical Checkup", date := String.data "2024-03-10",
    note := none, type := .expense, isNeed := true, createdAt := String.data "x" }

/-- An income transaction dated inside May 2024. -/
def tIncomeMay : Transaction :=
  { id := String.data "i1", title := String.data "salary", amount := 100,
    category := String.data "Salary", date := String.data "2024-05-10",
    note := none, type := .income, isNeed := false, createdAt := String.data "x" }

/-- An expense whose category "Healthcare" contains the need category
"Health", with a note full of want keywords and a high amount. -/
def tHealth : Transaction :=
  { id := String.data "t2", title := String.data "meds", amount := 500,
    category := String.data "Healthcare", date := String.data "2024-06-01",
    note := some (String.data "weekend movie splurge shopping"),
    type := .expense, isNeed := true, createdAt := String.data "x" }

/-- A sample prior classification used to exercise the user-history path. -/
def ctSample : ClassifiedTransaction :=
  { transactionId := String.data "t9", classification := .want,
    confidence := 0.9, aiGenerated := false }

/-! ### Helper lemmas -/

theorem filter_always_false (l : List α) : l.filter (fun _ => false) = [] := by
  induction l with
  | nil => rfl
  | cons x xs ih => simp [List.filter, ih]

/-- The history pass is the identity: `findTransactionById` always returns
`none`, so no prior classification ever counts as similar. -/
theorem learn_eq_default (t : Transaction)
    (ucs : Option (List ClassifiedTransaction))
    (cl : ExpenseClassification) (cf : ℚ) :
    learnFromUserHistory t ucs cl cf = (cl, cf) := by
  cases ucs with
  | none => rfl
  | some l =>
    cases l with
    | nil => rfl
    | cons a as =>
      simp [learnFromUserHistory, findTransactionById, filter_always_false]

/-- `classifyTransaction` reduces to the rule-based label and confidence,
independent of the history argument. -/
theorem classifyTransaction_eq (t : Transaction)
    (ucs : Option (List ClassifiedTransaction)) :
    classifyTransaction t ucs =
      { transactionId := t.id
        classification := ruleBasedClassification t
        confidence := calculateConfidence t (ruleBasedClassification t)
        aiGenerated := true } := by
  simp only [classifyTransaction, learn_eq_default]

/-- The confidence scorer starts at 0.5, adds only non-negative bonuses and
caps at 1. -/
theorem calculateConfidence_bounds (t : Transaction) (cl : ExpenseClassification) :
    0.5 ≤ calculateConfidence t cl ∧ calculateConfidence t cl ≤ 1 := by
  obtain ⟨i, ti, a, c, dt, n, ty, nd, ca⟩ := t
  constructor
  · refine le_min ?_ (by norm_num)
    cases n with
    | none => simp only [calculateConfidence]; split_ifs <;> norm_num
    | some s => simp only [calculateConfidence]; split_ifs <;> norm_num
  · exact min_le_right _ _

theorem foldl_add_amount (l : List Transaction) (a : ℚ) :
    l.foldl (fun s t => s + t.amount) a = a + (l.map (fun t => t.amount)).sum := by
  induction l generalizing a with
  | nil => simp
  | cons x xs ih => simp [List.foldl, ih]; ring

theorem sumSnd_mapAdd (m : List (List Char × ℚ)) (k : List Char) (v : ℚ) :
    sumSnd (mapAdd m k v) = sumSnd m + v := by
  induction m with
  | nil => simp [mapAdd, sumSnd]
  | cons p rest ih =>
    obtain ⟨k1, v1⟩ := p
    simp only [mapAdd]
    split
    · simp [sumSnd]; ring
    · simp only [sumSnd, List.map_cons, List.sum_cons] at ih ⊢
      rw [ih]; ring

theorem sumSnd_foldl_category (l : List Transaction) (m0 : List (List Char × ℚ)) :
    sumSnd (l.foldl (fun m t => mapAdd m t.category t.amount) m0) =
      sumSnd m0 + (l.map (fun t => t.amount)).sum := by
  induction l generalizing m0 with
  | nil => simp
  | cons x xs ih =>
    simp only [List.foldl, List.map_cons, List.sum_cons]
    rw [ih, sumSnd_mapAdd]; ring

theorem insertDesc_perm (f : α → ℚ) (x : α) (l : List α) :
    List.Perm (insertDesc f x l) (x :: l) := by
  induction l with
  | nil => exact List.Perm.refl _
  | cons y ys ih =>
    simp only [insertDesc]
    split
    · exact (ih.cons y).trans (List.Perm.swap x y ys)
    · exact List.Perm.refl _

theorem sortDesc_perm (f : α → ℚ) (l : List α) :
    List.Perm (sortDesc f l) l := by
  induction l with
  | nil => exact List.Perm.refl _
  | cons a l ih =>
    exact (insertDesc_perm f a (sortDesc f l)).trans (ih.cons a)

theorem mem_sortDesc (f : α → ℚ) (l : List α) (a : α) :
    a ∈ sortDesc f l ↔ a ∈ l := (sortDesc_perm f l).mem_iff

theorem length_sortDesc (f : α → ℚ) (l : List α) :
    (sortDesc f l).length = l.length := (sortDesc_perm f l).length_eq

theorem pairwise_insertDesc (f : α → ℚ) (x : α) (l : List α)
    (h : l.Pairwise (fun a b => f b ≤ f a)) :
    (insertDesc f x l).Pairwise (fun a b => f b ≤ f a) := by
  induction l with
  | nil => simp [insertDesc]
  | cons y ys ih =>
    rw [List.pairwise_cons] at h
    obtain ⟨hy, hys⟩ := h
    simp only [insertDesc]
    split
    · rename_i hlt
      rw [List.pairwise_cons]
      refine ⟨?_, ih hys⟩
      intro b hb
      rcases List.mem_cons.mp ((insertDesc_perm f x ys).mem_iff.mp hb) with rfl | hb2
      · exact le_of_lt hlt
      · exact hy b hb2
    · rename_i hge
      rw [List.pairwise_cons]
      refine ⟨?_, List.pairwise_cons.mpr ⟨hy, hys⟩⟩
      intro b hb
      rcases List.mem_cons.mp hb with rfl | hb2
      · exact le_of_not_lt hge
      · exact le_trans (hy b hb2) (le_of_not_lt hge)

theorem pairwise_sortDesc (f : α → ℚ) (l : List α) :
    (sortDesc f l).Pairwise (fun a b => f b ≤ f a) := by
  induction l with
  | nil => simp [sortDesc]
  | cons a l ih => exact pairwise_insertDesc f a _ ih

theorem sum_amount_sortDesc_map (g : List Char × ℚ → CategoryBreakdown)
    (l : List (List Char × ℚ)) (hg : ∀ p, (g p).amount = p.2) :
    ((sortDesc (fun b => b.amount) (l.map g)).map (fun b => b.amount)).sum =
      sumSnd l := by
  rw [List.Perm.sum_eq ((sortDesc_perm (fun b : CategoryBreakdown => b.amount)
    (l.map g)).map (fun b => b.amount))]
  rw [List.map_map]
  have hcomp : ((fun b : CategoryBreakdown => b.amount) ∘ g) = Prod.snd :=
    funext hg
  rw [hcomp]
  rfl

theorem roundTo2_nonneg (q : ℚ) (h : 0 ≤ q) : 0 ≤ roundTo2 q := by
  unfold roundTo2 jsRound
  refine div_nonneg ?_ (by norm_num)
  have h2 : (0 : ℤ) ≤ ⌊q * 100 + 1/2⌋ := by
    refine Int.floor_nonneg.mpr ?_
    have := mul_nonneg h (show (0:ℚ) ≤ 100 by norm_num)
    linarith
  exact_mod_cast h2

/-- `ruleBasedClassification` labels every "Medical Checkup" transaction with
no note as a need: the only keyword hit is `medical` from the need list. -/
theorem rule_medical (i ti da ca : List Char) (ty : Ttype) (nd : Bool) (amount : ℚ) :
    ruleBasedClassification
      ⟨i, ti, amount, String.data "Medical Checkup", da, none, ty, nd, ca⟩ =
      ExpenseClassification.need := by
  simp only [ruleBasedClassification, classificationText]
  rw [if_neg (show ¬(categoryNeedMatch (String.data "Medical Checkup") = true)
    by decide)]
  rw [if_pos (show (NEED_KEYWORDS.filter (fun k => strIncludes
    (jsLowerStr (String.data "Medical Checkup" ++ [' '] ++ Option.getD none [])) k)).length >
    (WANT_KEYWORDS.filter (fun k => strIncludes
    (jsLowerStr (String.data "Medical Checkup" ++ [' '] ++ Option.getD none [])) k)).length
    by decide)]

/-- Confidence for a noteless "Medical Checkup" transaction is at least 0.7:
base 0.5 plus 0.2 for the need-keyword hit, plus amount bonuses. -/
theorem conf_medical (i ti da ca : List Char) (ty : Ttype) (nd : Bool) (amount : ℚ)
    (cl : ExpenseClassification) :
    0.7 ≤ calculateConfidence
      ⟨i, ti, amount, String.data "Medical Checkup", da, none, ty, nd, ca⟩ cl := by
  have htext : jsLowerStr (String.data "Medical Checkup" ++ [' '] ++ Option.getD none []) =
      String.data "medical checkup " := by decide
  have hcat : categoryNeedMatch (String.data "Medical Checkup") = false := by decide
  have hkn : (NEED_KEYWORDS.filter
      (fun k => strIncludes (String.data "medical checkup ") k)).length = 1 := by decide
  have hkw : (WANT_KEYWORDS.filter
      (fun k => strIncludes (String.data "medical checkup ") k)).length = 0 := by decide
  simp only [calculateConfidence, classificationText, htext, hcat, hkn, hkw]
  refine le_min ?_ (by norm_num)
  norm_num
  split_ifs <;> norm_num

/-! ### Claim theorems -/

/-- C1 (counterexample): the claim says income-type transactions contribute
nothing to `spentSoFar`, but `calculateDailyForecast` filters only on the
month prefix of the date string: a single May-2024 income of 100 yields
`spentSoFar = 100`, while the sum over the month's expense-type
transactions is 0. -/
theorem spentSoFar_counts_income_transactions :
    (calculateDailyForecast [tIncomeMay] 1000 ⟨2024, 4, 15⟩).spentSoFar = 100 ∧
    ((([tIncomeMay].filter (fun t => strStarts t.date (monthKey ⟨2024, 4, 15⟩) &&
        decide (t.type = Ttype.expense))).map (fun t => t.amount)).sum = 0) ∧
    (100 : ℚ) ≠ 0 := by
  refine ⟨?_, ?_, by norm_num⟩
  · have hstep : [tIncomeMay].filter
        (fun t => strStarts t.date (monthKey ⟨2024, 4, 15⟩)) = [tIncomeMay] := by
      decide
    simp only [calculateDailyForecast]
    rw [hstep]
    norm_num [List.foldl, tIncomeMay]
  · have hstep2 : [tIncomeMay].filter
        (fun t => strStarts t.date (monthKey ⟨2024, 4, 15⟩) &&
          decide (t.type = Ttype.expense)) = [] := by decide
    rw [hstep2]
    simp

/-- C1 (amended): for every transaction list, monthly budget and target date,
`spentSoFar` equals the sum of the amounts of ALL transactions (expense and
income alike) whose date string starts with the target month prefix. -/
theorem spentSoFar_eq_sum_all_month_transactions (ts : List Transaction)
    (b : ℚ) (d : JDate) :
    (calculateDailyForecast ts b d).spentSoFar =
      ((ts.filter (fun t => strStarts t.date (monthKey d))).map
        (fun t => t.amount)).sum := by
  simp only [calculateDailyForecast]
  rw [foldl_add_amount]
  norm_num

/-- C2 (counterexample): the claim says shopping/gift categories get factor
1.3 in November, but `getMonth()` is 0-based: index 10 is November and the
holiday branch tests indices 11 and 0 (December and January), so a
"Shopping" category in November gets factor 1, not 1.3. -/
theorem seasonalFactor_shopping_november_is_one :
    getSeasonalFactor (String.data "Shopping") ⟨2024, 10, 15⟩ = 1 ∧
    (1 : ℚ) ≠ 1.3 := by
  have hs1 : strIncludes (jsLowerStr (String.data "Shopping"))
      (String.data "shopping") = true := by decide
  have hs2 : strIncludes (jsLowerStr (String.data "Shopping"))
      (String.data "gift") = false := by decide
  have hs3 : strIncludes (jsLowerStr (String.data "Shopping"))
      (String.data "travel") = false := by decide
  have hs4 : strIncludes (jsLowerStr (String.data "Shopping"))
      (String.data "entertainment") = false := by decide
  have hs5 : strIncludes (jsLowerStr (String.data "Shopping"))
      (String.data "education") = false := by decide
  refine ⟨?_, by norm_num⟩
  norm_num [getSeasonalFactor, hs1, hs2, hs3, hs4, hs5]

/-- C2 (amended): for every category containing "shopping" or "gift"
(case-insensitively) and every date whose `getMonth()` index is 11 or 0
(December or January), the seasonal factor is 1.3. -/
theorem seasonalFactor_dec_jan_shopping_gift (category : List Char) (d : JDate)
    (hcat : strIncludes (jsLowerStr category) (String.data "shopping") = true ∨
            strIncludes (jsLowerStr category) (String.data "gift") = true)
    (hm : d.month = 11 ∨ d.month = 0) :
    getSeasonalFactor category d = 1.3 := by
  simp only [getSeasonalFactor]
  rw [if_pos ⟨hm, hcat⟩]

/-- Witness for C2 (amended): "Shopping" in December (month index 11). -/
theorem seasonalFactor_dec_jan_shopping_gift_witness :
    (strIncludes (jsLowerStr (String.data "Shopping")) (String.data "shopping") = true ∨
     strIncludes (jsLowerStr (String.data "Shopping")) (String.data "gift") = true) ∧
    ((⟨2024, 11, 5⟩ : JDate).month = 11 ∨ (⟨2024, 11, 5⟩ : JDate).month = 0) ∧
    getSeasonalFactor (String.data "Shopping") ⟨2024, 11, 5⟩ = 1.3 :=
  ⟨Or.inl (by decide), Or.inl rfl,
   seasonalFactor_dec_jan_shopping_gift (String.data "Shopping") ⟨2024, 11, 5⟩
     (Or.inl (by decide)) (Or.inl rfl)⟩

/-- C3: a transaction whose category contains (case-insensitively) one of the
fixed need categories is always classified 'need', for every amount, note
and list of prior user classifications. -/
theorem needCategory_match_classifies_need (t : Transaction)
    (ucs : Option (List ClassifiedTransaction))
    (h : categoryNeedMatch t.category = true) :
    (classifyTransaction t ucs).classification = ExpenseClassification.need := by
  rw [classifyTransaction_eq]
  show ruleBasedClassification t = ExpenseClassification.need
  simp only [ruleBasedClassification]
  rw [if_pos h]

/-- Witness for C3: category "Healthcare" (contains "Health"), amount 500,
a want-keyword-laden note, and a nonempty history list. -/
theorem needCategory_match_classifies_need_witness :
    categoryNeedMatch tHealth.category = true ∧
    (classifyTransaction tHealth (some [ctSample])).classification =
      ExpenseClassification.need :=
  ⟨by decide, needCategory_match_classifies_need tHealth (some [ctSample]) (by decide)⟩

/-- C4 (counterexample): "Medical Checkup" with amount 100 (no amount bonus
fires) is classified 'need' but with confidence exactly 0.7, below the
claimed 0.8. -/
theorem medicalCheckup_midrange_confidence_below_08 :
    (classifyTransaction tMed none).classification = ExpenseClassification.need ∧
    (classifyTransaction tMed none).confidence = 0.7 ∧
    (classifyTransaction tMed none).confidence < 0.8 := by
  have htext : jsLowerStr (String.data "Medical Checkup" ++ [' '] ++ Option.getD none []) =
      String.data "medical checkup " := by decide
  have hcat : categoryNeedMatch (String.data "Medical Checkup") = false := by decide
  have hkn : (NEED_KEYWORDS.filter
      (fun k => strIncludes (String.data "medical checkup ") k)).length = 1 := by decide
  have hkw : (WANT_KEYWORDS.filter
      (fun k => strIncludes (String.data "medical checkup ") k)).length = 0 := by decide
  have hconf : calculateConfidence tMed (ruleBasedClassification tMed) = 0.7 := by
    simp only [tMed, calculateConfidence, classificationText, htext, hcat, hkn, hkw]
    norm_num
  have hrule : ruleBasedClassification tMed = ExpenseClassification.need :=
    rule_medical (String.data "t1") (String.data "checkup")
      (String.data "2024-03-10") (String.data "x") .expense true 100
  rw [classifyTransaction_eq]
  exact ⟨hrule, hconf, by rw [hconf]; norm_num⟩

/-- C4 (amended): every "Medical Checkup" transaction with no note is
classified 'need' with confidence at least 0.7, regardless of amount (the
confidence is 0.8 when the amount bonus for >200 or <50 fires, 0.7
otherwise). -/
theorem medicalCheckup_need_confidence_ge_07 (i ti da ca : List Char)
    (ty : Ttype) (nd : Bool) (amount : ℚ) :
    (classifyTransaction
      ⟨i, ti, amount, String.data "Medical Checkup", da, none, ty, nd, ca⟩
      none).classification = ExpenseClassification.need ∧
    0.7 ≤ (classifyTransaction
      ⟨i, ti, amount, String.data "Medical Checkup", da, none, ty, nd, ca⟩
      none).confidence := by
  rw [classifyTransaction_eq]
  exact ⟨rule_medical i ti da ca ty nd amount,
    conf_medical i ti da ca ty nd amount
      (ruleBasedClassification
        ⟨i, ti, amount, String.data "Medical Checkup", da, none, ty, nd, ca⟩)⟩

/-- C5: the amounts of the category-breakdown entries sum exactly to the
expense total of the period (grouping and descending sort preserve the sum;
exact in ℚ, hence within any floating-point tolerance). -/
theorem categoryBreakdown_sum_eq_period_expense_sum (ts : List Transaction)
    (period : List Char) :
    ((calculateCategoryBreakdown ts period).map (fun b => b.amount)).sum =
      ((ts.filter (fun t => strStarts t.date period &&
        decide (t.type = Ttype.expense))).map (fun t => t.amount)).sum := by
  simp only [calculateCategoryBreakdown]
  rw [sum_amount_sortDesc_map _ _ (fun p => rfl), sumSnd_foldl_category]
  simp [sumSnd]

/-- C7: `safeToSpend` is never negative: the remaining budget is clamped at
0 (`Math.max(0, ...)`), days left are positive for calendar dates, and
two-decimal rounding preserves non-negativity. -/
theorem safeToSpend_nonneg (ts : List Transaction) (b : ℚ) (d : JDate) :
    0 ≤ (calculateDailyForecast ts b d).safeToSpend := by
  simp only [calculateDailyForecast]
  apply roundTo2_nonneg
  split_ifs with h
  · refine div_nonneg (le_max_left 0 _) ?_
    exact le_of_lt (by exact_mod_cast h)
  · exact le_refl 0

/-- C8: the user-history argument never influences the classification result:
`findTransactionById` always returns `none`, so the similar-transaction
filter is empty and the default label and confidence survive unchanged. -/
theorem classification_independent_of_history (t : Transaction)
    (u1 u2 : Option (List ClassifiedTransaction)) :
    classifyTransaction t u1 = classifyTransaction t u2 := by
  rw [classifyTransaction_eq, classifyTransaction_eq]

/-- C9: the confidence returned by `classifyTransaction` always lies in
[0, 1]. -/
theorem confidence_in_unit_interval (t : Transaction)
    (ucs : Option (List ClassifiedTransaction)) :
    0 ≤ (classifyTransaction t ucs).confidence ∧
    (classifyTransaction t ucs).confidence ≤ 1 := by
  rw [classifyTransaction_eq]
  obtain ⟨h1, h2⟩ := calculateConfidence_bounds t (ruleBasedClassification t)
  exact ⟨le_trans (by norm_num) h1, h2⟩

/-- C10: on the non-error path the confidence starts from base 0.5 and only
gains non-negative bonuses before the cap at 1, so every produced
classification — 'unclassified' included — has confidence in [0.5, 1]. -/
theorem confidence_in_half_one_interval (t : Transaction)
    (ucs : Option (List ClassifiedTransaction)) :
    0.5 ≤ (classifyTransaction t ucs).confidence ∧
    (classifyTransaction t ucs).confidence ≤ 1 := by
  rw [classifyTransaction_eq]
  exact calculateConfidence_bounds t (ruleBasedClassification t)

/-- C6 (counterexample): with ten expense days of mean 10 (threshold 15),
four days qualify (19, 18, 17, 16) but the cap keeps only the top three: the
day at 16 strictly exceeds 1.5 times the mean yet gets no
'high_spending_day' insight, refuting the claimed "if and only if". -/
theorem highSpendingDay_qualifying_day_dropped :
    (String.data "2024-05-04", (16 : ℚ)) ∈ dailyTotals ts6 ∧
    (16 : ℚ) > avgDaily ts6 * 1.5 ∧
    (String.data "2024-05-04", (16 : ℚ)) ∉ highSpendingDays ts6 := by
  have h1 : dailyTotals ts6 =
      [(String.data "2024-05-01", (19 : ℚ)), (String.data "2024-05-02", 18),
       (String.data "2024-05-03", 17), (String.data "2024-05-04", 16),
       (String.data "2024-05-05", 5), (String.data "2024-05-06", 5),
       (String.data "2024-05-07", 5), (String.data "2024-05-08", 5),
       (String.data "2024-05-09", 5), (String.data "2024-05-10", 5)] := by
    decide
  have havg : avgDaily ts6 = 10 := by
    rw [avgDaily, h1]
    norm_num [sumSnd]
  have hq : (dailyTotals ts6).filter (fun p => decide (p.2 > avgDaily ts6 * 1.5)) =
      [(String.data "2024-05-01", (19 : ℚ)), (String.data "2024-05-02", 18),
       (String.data "2024-05-03", 17), (String.data "2024-05-04", 16)] := by
    simp only [h1, havg]
    norm_num [List.filter_cons]
  have hs : sortDesc Prod.snd
      [(String.data "2024-05-01", (19 : ℚ)), (String.data "2024-05-02", 18),
       (String.data "2024-05-03", 17), (String.data "2024-05-04", 16)] =
      [(String.data "2024-05-01", (19 : ℚ)), (String.data "2024-05-02", 18),
       (String.data "2024-05-03", 17), (String.data "2024-05-04", 16)] := by
    norm_num [sortDesc, insertDesc]
  have hE : highSpendingDays ts6 =
      [(String.data "2024-05-01", (19 : ℚ)), (String.data "2024-05-02", 18),
       (String.data "2024-05-03", 17)] := by
    simp only [highSpendingDays]
    rw [if_neg (show ¬(ts6.isEmpty = true) by decide),
        if_neg (show ¬((expensesOf ts6).isEmpty = true) by decide), hq, hs]
    rfl
  refine ⟨?_, ?_, ?_⟩
  · rw [h1]; simp
  · rw [havg]; norm_num
  · rw [hE]
    intro hmem
    norm_num [List.mem_cons, Prod.mk.injEq] at hmem

/-- C6 (amended): for every transaction list with at least one expense, the
emitted high-spending-day entries (i) all strictly exceed 1.5 times the mean
per-day expense total (so a day at exactly 1.5 times the mean is never
flagged), (ii) are ordered by descending day total, (iii) number at most 3,
and (iv) when at most 3 days qualify, every qualifying day is emitted — the
claimed "if and only if" holds except that the cap of 3 can drop a
qualifying day. -/
theorem highSpendingDays_sound_sorted_capped (ts : List Transaction)
    (h : expensesOf ts ≠ []) :
    (∀ p ∈ highSpendingDays ts,
      p ∈ dailyTotals ts ∧ p.2 > avgDaily ts * 1.5) ∧
    List.Pairwise (fun a b => b.2 ≤ a.2) (highSpendingDays ts) ∧
    (highSpendingDays ts).length ≤ 3 ∧
    (((dailyTotals ts).filter (fun p => decide (p.2 > avgDaily ts * 1.5))).length ≤ 3 →
      ∀ p ∈ dailyTotals ts, p.2 > avgDaily ts * 1.5 → p ∈ highSpendingDays ts) := by
  have hts : ¬(ts.isEmpty = true) := by
    cases ts with
    | nil => exact absurd (rfl : expensesOf ([] : List Transaction) = []) h
    | cons a l => simp [List.isEmpty]
  have hexp : ¬((expensesOf ts).isEmpty = true) := by
    cases he : expensesOf ts with
    | nil => exact absurd he h
    | cons a l => simp [List.isEmpty]
  have hE : highSpendingDays ts = (sortDesc Prod.snd
      ((dailyTotals ts).filter (fun p => decide (p.2 > avgDaily ts * 1.5)))).take 3 := by
    simp only [highSpendingDays]
    rw [if_neg hts, if_neg hexp]
  refine ⟨?_, ?_, ?_, ?_⟩
  · intro p hp
    rw [hE] at hp
    have hp2 := List.mem_of_mem_take hp
    rw [mem_sortDesc] at hp2
    obtain ⟨hm, hgt⟩ := List.mem_filter.mp hp2
    exact ⟨hm, by simpa using hgt⟩
  · rw [hE]
    exact (pairwise_sortDesc _ _).sublist (List.take_sublist _ _)
  · rw [hE]
    exact List.length_take_le _ _
  · intro hlen p hm hgt
    rw [hE]
    have hq : p ∈ (dailyTotals ts).filter (fun p => decide (p.2 > avgDaily ts * 1.5)) :=
      List.mem_filter.mpr ⟨hm, by simpa using hgt⟩
    rw [List.take_of_length_le (by rw [length_sortDesc]; exact hlen)]
    rw [mem_sortDesc]
    exact hq

/-- Witness for C6 (amended): the ten-day May 2024 expense list. -/
theorem highSpendingDays_sound_sorted_capped_witness :
    expensesOf ts6 ≠ [] ∧
    ((∀ p ∈ highSpendingDays ts6,
        p ∈ dailyTotals ts6 ∧ p.2 > avgDaily ts6 * 1.5) ∧
     List.Pairwise (fun a b => b.2 ≤ a.2) (highSpendingDays ts6) ∧
     (highSpendingDays ts6).length ≤ 3 ∧
     (((dailyTotals ts6).filter
         (fun p => decide (p.2 > avgDaily ts6 * 1.5))).length ≤ 3 →
       ∀ p ∈ dailyTotals ts6, p.2 > avgDaily ts6 * 1.5 →
         p ∈ highSpendingDays ts6)) :=
  ⟨by decide, highSpendingDays_sound_sorted_capped ts6 (by decide)⟩

end SmartSpend
